import Mathlib

/-!
Verification development for the devconsole Component reconciler.

The Go package `pkg/controller/component` derives four platform resources
from a `Component` custom resource: a builder `ImageStream`, an output
`ImageStream`, a `BuildConfig` and a `DeploymentConfig`.  The pure template
builders live in `component_resources.go` and are embedded here field by
field.  The reconciliation loop, the static `buildTypeImages` table and the
`resource.GetLabelsForCR` helper are not part of the available sources, so
they are modelled from the specification (each such definition says so in
its doc comment).
-/

/-! ## Data model (shallow embedding of the k8s / openshift API types used) -/

/-- Kubernetes ObjectMeta: the fields the source sets (Name, Namespace,
Labels).  Labels are an association list. -/
structure ObjectMeta where
  name : String := ""
  nspace : String := ""
  labels : List (String × String) := []
  deriving DecidableEq, Repr

/-- corev1.ObjectReference: the fields the source sets (Kind, Name,
Namespace). -/
structure ObjectReference where
  kind : String := ""
  name : String := ""
  nspace : String := ""
  deriving DecidableEq, Repr

/-- imagev1.ImageLookupPolicy. -/
structure ImageLookupPolicy where
  local' : Bool := false
  deriving DecidableEq, Repr

/-- imagev1.TagReference: the fields the source sets (Name, From). -/
structure TagReference where
  name : String := ""
  fromRef : Option ObjectReference := none
  deriving DecidableEq, Repr

/-- imagev1.ImageStreamSpec. -/
structure ImageStreamSpec where
  lookupPolicy : ImageLookupPolicy := {}
  tags : List TagReference := []
  deriving DecidableEq, Repr

/-- imagev1.ImageStream. -/
structure ImageStream where
  objectMeta : ObjectMeta := {}
  spec : ImageStreamSpec := {}
  deriving DecidableEq, Repr

/-- buildv1.GitBuildSource: the fields the source sets (URI, Ref). -/
structure GitBuildSource where
  uri : String := ""
  ref : String := ""
  deriving DecidableEq, Repr

/-- buildv1.BuildSource. -/
structure BuildSource where
  git : Option GitBuildSource := none
  type : String := ""
  deriving DecidableEq, Repr

/-- buildv1.BuildOutput. -/
structure BuildOutput where
  toRef : Option ObjectReference := none
  deriving DecidableEq, Repr

/-- buildv1.SourceBuildStrategy: the fields the source sets
(From, Incremental). -/
structure SourceBuildStrategy where
  fromRef : ObjectReference := {}
  incremental : Option Bool := none
  deriving DecidableEq, Repr

/-- buildv1.BuildStrategy (only the SourceStrategy variant is used). -/
structure BuildStrategy where
  sourceStrategy : Option SourceBuildStrategy := none
  deriving DecidableEq, Repr

/-- buildv1.ImageChangeTrigger: the source constructs the zero value. -/
structure ImageChangeTrigger where
  lastTriggeredImageID : String := ""
  deriving DecidableEq, Repr

/-- buildv1.BuildTriggerPolicy. -/
structure BuildTriggerPolicy where
  type : String := ""
  imageChange : Option ImageChangeTrigger := none
  deriving DecidableEq, Repr

/-- buildv1.CommonSpec: the fields the source sets
(Output, Source, Strategy). -/
structure CommonSpec where
  output : BuildOutput := {}
  source : BuildSource := {}
  strategy : BuildStrategy := {}
  deriving DecidableEq, Repr

/-- buildv1.BuildConfigSpec. -/
structure BuildConfigSpec where
  commonSpec : CommonSpec := {}
  triggers : List BuildTriggerPolicy := []
  deriving DecidableEq, Repr

/-- buildv1.BuildConfig. -/
structure BuildConfig where
  objectMeta : ObjectMeta := {}
  spec : BuildConfigSpec := {}
  deriving DecidableEq, Repr

/-- appsv1.DeploymentStrategy (only the Type field is set). -/
structure DeploymentStrategy where
  type : String := ""
  deriving DecidableEq, Repr

/-- corev1.ContainerPort: the fields the source sets
(ContainerPort, Protocol). -/
structure ContainerPort where
  containerPort : Nat := 0
  protocol : String := ""
  deriving DecidableEq, Repr

/-- corev1.Container: the fields the source sets (Name, Image, Ports). -/
structure Container where
  name : String := ""
  image : String := ""
  ports : List ContainerPort := []
  deriving DecidableEq, Repr

/-- corev1.PodSpec (only Containers is set). -/
structure PodSpec where
  containers : List Container := []
  deriving DecidableEq, Repr

/-- corev1.PodTemplateSpec. -/
structure PodTemplateSpec where
  objectMeta : ObjectMeta := {}
  spec : PodSpec := {}
  deriving DecidableEq, Repr

/-- appsv1.DeploymentTriggerImageChangeParams: the fields the source sets
(Automatic, ContainerNames, From). -/
structure DeploymentTriggerImageChangeParams where
  automatic : Bool := false
  containerNames : List String := []
  fromRef : ObjectReference := {}
  deriving DecidableEq, Repr

/-- appsv1.DeploymentTriggerPolicy. -/
structure DeploymentTriggerPolicy where
  type : String := ""
  imageChangeParams : Option DeploymentTriggerImageChangeParams := none
  deriving DecidableEq, Repr

/-- appsv1.DeploymentConfigSpec: the fields the source sets
(Strategy, Replicas, Selector, Template, Triggers). -/
structure DeploymentConfigSpec where
  strategy : DeploymentStrategy := {}
  replicas : Nat := 0
  selector : List (String × String) := []
  template : Option PodTemplateSpec := none
  triggers : List DeploymentTriggerPolicy := []
  deriving DecidableEq, Repr

/-- appsv1.DeploymentConfig. -/
structure DeploymentConfig where
  objectMeta : ObjectMeta := {}
  spec : DeploymentConfigSpec := {}
  deriving DecidableEq, Repr

/-- ComponentSpec of the devconsole v1alpha1 API: BuildType and Codebase,
the two fields this package reads. -/
structure ComponentSpec where
  buildType : String := ""
  codebase : String := ""
  deriving DecidableEq, Repr

/-- The Component custom resource: ObjectMeta flattened to the Name and
Namespace the source reads, plus its Spec. -/
structure Component where
  name : String := ""
  nspace : String := ""
  spec : ComponentSpec := {}
  deriving DecidableEq, Repr

/-! ## External API constants used by the source -/

/-- appsv1.DeploymentStrategyTypeRecreate. -/
def DeploymentStrategyTypeRecreate : String := "Recreate"

/-- appsv1.DeploymentTriggerOnConfigChange. -/
def DeploymentTriggerOnConfigChange : String := "ConfigChange"

/-- appsv1.DeploymentTriggerOnImageChange. -/
def DeploymentTriggerOnImageChange : String := "ImageChange"

/-- buildv1.BuildSourceGit. -/
def BuildSourceGit : String := "Git"

/-- corev1.ProtocolTCP. -/
def ProtocolTCP : String := "TCP"

/-! ## Helpers not under src/, modelled from the specification -/

/-- Modelled from the spec: the static, compiled-in `buildTypeImages`
mapping from build-runtime identifier to an external registry image
reference; its definition is not among the available sources.  The spec
and the controller test pin one entry,
`"nodejs" → "nodeshift/centos7-s2i-nodejs:10.x"`; every other key
(including the empty string) is absent. -/
def buildTypeImages (buildType : String) : Option String :=
  if buildType == "nodejs" then some "nodeshift/centos7-s2i-nodejs:10.x"
  else none

/-- Modelled from the spec: `resource.GetLabelsForCR` is not among the
available sources.  Per the spec all four derived resources carry the
single label `app=<Component.name>`, and the test asserts exactly one
label `app` with the CR name. -/
def GetLabelsForCR (cr : Component) : List (String × String) :=
  [("app", cr.name)]

/-! ## Resource template builders (component_resources.go) -/

/-- newImageStreamFromDocker: returns none when the Component's BuildType
is not a key of `buildTypeImages`; otherwise an ImageStream named after
the BuildType in the Component's namespace with one tag `latest` whose
From is the mapped DockerImage. -/
def newImageStreamFromDocker (cr : Component) : Option ImageStream :=
  let labels := GetLabelsForCR cr
  match buildTypeImages cr.spec.buildType with
  | none => none
  | some img => some
    { objectMeta := { name := cr.spec.buildType, nspace := cr.nspace, labels := labels }
      spec :=
        { lookupPolicy := { local' := false }
          tags := [{ name := "latest"
                     fromRef := some { kind := "DockerImage", name := img } }] } }

/-- newOutputImageStream: an ImageStream named after the Component in its
namespace, with the zero-valued spec (no tags). -/
def newOutputImageStream (cr : Component) : ImageStream :=
  let labels := GetLabelsForCR cr
  { objectMeta := { name := cr.name, nspace := cr.nspace, labels := labels } }

/-- newBuildConfig: builds the BuildConfig for a Component from a resolved
builder ImageStream. -/
def newBuildConfig (cr : Component) (builder : ImageStream) : BuildConfig :=
  let labels := GetLabelsForCR cr
  let buildSource : BuildSource :=
    { git := some { uri := cr.spec.codebase, ref := "master" }
      type := BuildSourceGit }
  let incremental := true
  { objectMeta := { name := cr.name, nspace := cr.nspace, labels := labels }
    spec :=
      { commonSpec :=
          { output := { toRef := some { kind := "ImageStreamTag", name := cr.name ++ ":latest" } }
            source := buildSource
            strategy :=
              { sourceStrategy := some
                  { fromRef :=
                      { kind := "ImageStreamTag"
                        name := builder.objectMeta.name ++ ":latest"
                        nspace := builder.objectMeta.nspace }
                    incremental := some incremental } } }
        triggers :=
          [{ type := "ConfigChange" },
           { type := "ImageChange", imageChange := some {} }] } }

/-- newDeploymentConfig: builds the DeploymentConfig for a Component from
the resolved output ImageStream. -/
def newDeploymentConfig (cr : Component) (output : ImageStream) : DeploymentConfig :=
  let labels := GetLabelsForCR cr
  { objectMeta := { name := cr.name, nspace := cr.nspace, labels := labels }
    spec :=
      { strategy := { type := DeploymentStrategyTypeRecreate }
        replicas := 1
        selector := labels
        template := some
          { objectMeta := { name := cr.name, nspace := cr.nspace, labels := labels }
            spec :=
              { containers :=
                  [{ name := output.objectMeta.name
                     image := output.objectMeta.name ++ ":latest"
                     ports := [{ containerPort := 8080, protocol := ProtocolTCP }] }] } }
        triggers :=
          [{ type := DeploymentTriggerOnConfigChange },
           { type := DeploymentTriggerOnImageChange
             imageChangeParams := some
               { automatic := true
                 containerNames := [output.objectMeta.name]
                 fromRef :=
                   { kind := "ImageStreamTag"
                     name := output.objectMeta.name ++ ":latest" } } }] } }

/-! ## The cluster store and the reconciliation pass

The reconciler (`component_controller.go`) is not among the available
sources; it is modelled from the specification (section 4.2 of the spec)
as a pure state transformer over an in-memory typed store, exactly as the
spec describes the external store interface: Get by (namespace, name),
Create with already-exists treated as success. -/

/-- A typed resource key: (namespace, name). -/
def keyMatches {α : Type} (key : α → String × String) (ns nm : String) (x : α) : Bool :=
  (key x).1 == ns && (key x).2 == nm

/-- Get by (namespace, name): first stored resource with that key. -/
def getByName {α : Type} (key : α → String × String) (l : List α) (ns nm : String) : Option α :=
  l.find? (keyMatches key ns nm)

/-- Create with already-exists treated as success: when a resource with
the same (namespace, name) key is already stored, the store is returned
unchanged; otherwise the resource is appended. -/
def createIfAbsent {α : Type} (key : α → String × String) (l : List α) (x : α) : List α :=
  if (getByName key l (key x).1 (key x).2).isSome then l else l ++ [x]

/-- Key of a stored Component. -/
def componentKey (c : Component) : String × String := (c.nspace, c.name)

/-- Key of a stored ImageStream. -/
def imageStreamKey (s : ImageStream) : String × String :=
  (s.objectMeta.nspace, s.objectMeta.name)

/-- Key of a stored BuildConfig. -/
def buildConfigKey (b : BuildConfig) : String × String :=
  (b.objectMeta.nspace, b.objectMeta.name)

/-- Key of a stored DeploymentConfig. -/
def deploymentConfigKey (d : DeploymentConfig) : String × String :=
  (d.objectMeta.nspace, d.objectMeta.name)

/-- The typed cluster store: one keyed list per resource kind this
package reads or creates. -/
structure Store where
  components : List Component := []
  imageStreams : List ImageStream := []
  buildConfigs : List BuildConfig := []
  deploymentConfigs : List DeploymentConfig := []
  deriving DecidableEq, Repr

/-- The shared/system namespace in which cluster-local builder images are
looked up; the controller test pins it to "openshift". -/
def sharedNamespace : String := "openshift"

/-- Modelled from the spec: `ReconcileComponent.Reconcile`, whose source
(`component_controller.go`) is not among the available sources.  One
reconciliation pass, per spec section 4.2 and the behaviors pinned by the
controller test:
1. fetch the Component by (namespace, name); not-found is a benign no-op;
2. ensure the output ImageStream (created unconditionally — the test for
   an empty BuildType observes it even though the pass fails);
3. resolve the builder image: a cluster-local ImageStream named after the
   BuildType in the shared namespace wins; otherwise the declared
   ImageStream from `newImageStreamFromDocker` is created; if that is
   absent the pass fails fatally with no further resources;
4. ensure the BuildConfig built from the resolved builder;
5. ensure the DeploymentConfig built from the output ImageStream.
Returns (success flag, resulting store); every create treats
already-exists as success. -/
def reconcile (st : Store) (ns nm : String) : Bool × Store :=
  match getByName componentKey st.components ns nm with
  | none => (true, st)
  | some cr =>
    match getByName imageStreamKey (createIfAbsent imageStreamKey st.imageStreams (newOutputImageStream cr)) sharedNamespace cr.spec.buildType with
    | some builder =>
      (true,
        { st with
            imageStreams := createIfAbsent imageStreamKey st.imageStreams (newOutputImageStream cr)
            buildConfigs := createIfAbsent buildConfigKey st.buildConfigs (newBuildConfig cr builder)
            deploymentConfigs := createIfAbsent deploymentConfigKey st.deploymentConfigs (newDeploymentConfig cr (newOutputImageStream cr)) })
    | none =>
      match newImageStreamFromDocker cr with
      | none =>
        (false, { st with imageStreams := createIfAbsent imageStreamKey st.imageStreams (newOutputImageStream cr) })
      | some builder =>
        (true,
          { st with
              imageStreams := createIfAbsent imageStreamKey (createIfAbsent imageStreamKey st.imageStreams (newOutputImageStream cr)) builder
              buildConfigs := createIfAbsent buildConfigKey st.buildConfigs (newBuildConfig cr builder)
              deploymentConfigs := createIfAbsent deploymentConfigKey st.deploymentConfigs (newDeploymentConfig cr (newOutputImageStream cr)) })

/-! ## Concrete fixtures (the controller test's Component and resources) -/

/-- The Component the controller test reconciles: name "MyComp" in
namespace "test-project", BuildType "nodejs", Codebase
"https://somegit.con/myrepo". -/
def testComponent : Component :=
  { name := "MyComp"
    nspace := "test-project"
    spec := { buildType := "nodejs", codebase := "https://somegit.con/myrepo" } }
/-- The declared builder ImageStream `newImageStreamFromDocker` returns
for `testComponent`. -/
def nodejsBuilderImageStream : ImageStream :=
  { objectMeta := { name := "nodejs", nspace := "test-project", labels := [("app", "MyComp")] }
    spec :=
      { lookupPolicy := { local' := false }
        tags := [{ name := "latest"
                   fromRef := some { kind := "DockerImage", name := "nodeshift/centos7-s2i-nodejs:10.x" } }] } }
/-- The pre-seeded cluster-local nodejs ImageStream of the controller
test: named "nodejs" in the "openshift" namespace, empty spec. -/
def openshiftNodejsImageStream : ImageStream :=
  { objectMeta := { name := "nodejs", nspace := "openshift" } }
/-- The store of the controller test's "without buildtype" case: only the
Component (BuildType "") is tracked. -/
def emptyBuildTypeStore : Store :=
  { components := [{ name := "MyComp", nspace := "test-project"
                     spec := { buildType := "", codebase := "https://somegit.con/myrepo" } }] }
/-- The store of the controller test's cluster-local case: the Component
plus a pre-seeded "nodejs" ImageStream in the "openshift" namespace. -/
def clusterLocalStore : Store :=
  { components := [testComponent]
    imageStreams := [openshiftNodejsImageStream] }
/-- The store of the controller test's first case: only the Component
(BuildType "nodejs") is tracked. -/
def mappedStore : Store := { components := [testComponent] }
/-- The store of the controller test's "without codebases" case: only the
Component (BuildType "nodejs", empty Codebase) is tracked. -/
def emptyCodebaseStore : Store :=
  { components := [{ name := "MyComp", nspace := "test-project"
                     spec := { buildType := "nodejs", codebase := "" } }] }

/-! ## Store lemmas -/

theorem getByName_append_of_none {α : Type} (key : α → String × String) (l₁ l₂ : List α)
    (ns nm : String) (h : getByName key l₁ ns nm = none) :
    getByName key (l₁ ++ l₂) ns nm = getByName key l₂ ns nm := by
  unfold getByName at h ⊢
  rw [List.find?_append, h, Option.none_or]

theorem getByName_append_of_some {α : Type} (key : α → String × String) (l₁ l₂ : List α)
    (ns nm : String) (v : α) (h : getByName key l₁ ns nm = some v) :
    getByName key (l₁ ++ l₂) ns nm = some v := by
  unfold getByName at h ⊢
  rw [List.find?_append, h]
  rfl

theorem getByName_singleton_self {α : Type} (key : α → String × String) (x : α) :
    getByName key [x] (key x).1 (key x).2 = some x := by
  simp [getByName, List.find?, keyMatches]

theorem getByName_singleton_of_ne {α : Type} (key : α → String × String) (x : α)
    (ns nm : String) (hne : ¬((key x).1 = ns ∧ (key x).2 = nm)) :
    getByName key [x] ns nm = none := by
  have hp : ¬(keyMatches key ns nm x = true) := by
    intro hcontra
    exact hne (by simpa [keyMatches] using hcontra)
  unfold getByName
  rw [List.find?_cons_of_neg _ hp]
  rfl

theorem createIfAbsent_of_isSome {α : Type} (key : α → String × String) (l : List α) (x : α)
    (h : (getByName key l (key x).1 (key x).2).isSome) :
    createIfAbsent key l x = l := by
  unfold createIfAbsent
  rw [if_pos h]

theorem getByName_createIfAbsent_self {α : Type} (key : α → String × String) (l : List α)
    (x : α) :
    (getByName key (createIfAbsent key l x) (key x).1 (key x).2).isSome := by
  unfold createIfAbsent
  by_cases h : (getByName key l (key x).1 (key x).2).isSome
  · rw [if_pos h]
    exact h
  · rw [if_neg h]
    rw [Option.not_isSome_iff_eq_none] at h
    rw [getByName_append_of_none key l [x] _ _ h, getByName_singleton_self]
    rfl

theorem getByName_createIfAbsent_none_self {α : Type} (key : α → String × String) (l : List α)
    (x : α) (h : getByName key l (key x).1 (key x).2 = none) :
    getByName key (createIfAbsent key l x) (key x).1 (key x).2 = some x := by
  unfold createIfAbsent
  rw [h]
  simp only [Option.isSome_none, Bool.false_eq_true, if_false]
  rw [getByName_append_of_none key l [x] _ _ h, getByName_singleton_self]

theorem getByName_createIfAbsent_of_some {α : Type} (key : α → String × String) (l : List α)
    (x : α) (ns nm : String) (v : α) (h : getByName key l ns nm = some v) :
    getByName key (createIfAbsent key l x) ns nm = some v := by
  unfold createIfAbsent
  by_cases hx : (getByName key l (key x).1 (key x).2).isSome
  · rw [if_pos hx]
    exact h
  · rw [if_neg hx]
    exact getByName_append_of_some key l [x] ns nm v h

theorem getByName_createIfAbsent_isSome_mono {α : Type} (key : α → String × String)
    (l : List α) (x : α) (ns nm : String) (h : (getByName key l ns nm).isSome) :
    (getByName key (createIfAbsent key l x) ns nm).isSome := by
  rw [Option.isSome_iff_exists] at h
  obtain ⟨v, hv⟩ := h
  rw [getByName_createIfAbsent_of_some key l x ns nm v hv]
  rfl

theorem getByName_createIfAbsent_of_ne {α : Type} (key : α → String × String) (l : List α)
    (x : α) (ns nm : String) (hne : ¬((key x).1 = ns ∧ (key x).2 = nm))
    (h : getByName key l ns nm = none) :
    getByName key (createIfAbsent key l x) ns nm = none := by
  unfold createIfAbsent
  by_cases hx : (getByName key l (key x).1 (key x).2).isSome
  · rw [if_pos hx]
    exact h
  · rw [if_neg hx, getByName_append_of_none key l [x] _ _ h]
    exact getByName_singleton_of_ne key x ns nm hne

theorem createIfAbsent_idem {α : Type} (key : α → String × String) (l : List α) (x : α) :
    createIfAbsent key (createIfAbsent key l x) x = createIfAbsent key l x :=
  createIfAbsent_of_isSome key _ x (getByName_createIfAbsent_self key l x)

theorem getByName_key_of_some {α : Type} (key : α → String × String) (l : List α)
    (ns nm : String) (v : α) (h : getByName key l ns nm = some v) :
    (key v).1 = ns ∧ (key v).2 = nm := by
  have h2 := List.find?_some h
  simpa [keyMatches] using h2

theorem reconcile_components (st : Store) (ns nm : String) :
    (reconcile st ns nm).2.components = st.components := by
  rcases hc : getByName componentKey st.components ns nm with _ | cr
  · simp [reconcile, hc]
  · rcases hb : getByName imageStreamKey
        (createIfAbsent imageStreamKey st.imageStreams (newOutputImageStream cr))
        sharedNamespace cr.spec.buildType with _ | b
    · rcases hd : newImageStreamFromDocker cr with _ | b
      · simp [reconcile, hc, hb, hd]
      · simp [reconcile, hc, hb, hd]
    · simp [reconcile, hc, hb]

theorem newImageStreamFromDocker_of_mapped (cr : Component) (img : String)
    (h : buildTypeImages cr.spec.buildType = some img) :
    newImageStreamFromDocker cr = some
      { objectMeta := { name := cr.spec.buildType, nspace := cr.nspace, labels := GetLabelsForCR cr }
        spec :=
          { lookupPolicy := { local' := false }
            tags := [{ name := "latest", fromRef := some { kind := "DockerImage", name := img } }] } } := by
  simp [newImageStreamFromDocker, h]

theorem newImageStreamFromDocker_of_unmapped (cr : Component)
    (h : buildTypeImages cr.spec.buildType = none) :
    newImageStreamFromDocker cr = none := by
  simp [newImageStreamFromDocker, h]

/-! ## Claims about the resource template builders -/

/-- C1: `newImageStreamFromDocker` returns none exactly when the
Component's BuildType is empty or not a key of the static
`buildTypeImages` table; when the table maps the BuildType to an image,
it returns an ImageStream named after the BuildType, in the Component's
namespace, with exactly one tag named "latest" whose source is the
mapped external DockerImage. -/
theorem newImageStreamFromDocker_correct (cr : Component) :
    (newImageStreamFromDocker cr = none ↔
      (cr.spec.buildType = "" ∨ buildTypeImages cr.spec.buildType = none)) ∧
    (∀ img : String, buildTypeImages cr.spec.buildType = some img →
      ∃ is : ImageStream, newImageStreamFromDocker cr = some is ∧
        is.objectMeta.name = cr.spec.buildType ∧
        is.objectMeta.nspace = cr.nspace ∧
        is.spec.tags = [{ name := "latest", fromRef := some { kind := "DockerImage", name := img } }]) := by
  constructor
  · constructor
    · intro h
      right
      rcases hb : buildTypeImages cr.spec.buildType with _ | img
      · rfl
      · rw [newImageStreamFromDocker_of_mapped cr img hb] at h
        cases h
    · intro h
      rcases h with h | h
      · exact newImageStreamFromDocker_of_unmapped cr (by rw [h]; rfl)
      · exact newImageStreamFromDocker_of_unmapped cr h
  · intro img h
    exact ⟨_, newImageStreamFromDocker_of_mapped cr img h, rfl, rfl, rfl⟩

/-- Witness for C1 at the controller test's Component: "nodejs" is
mapped, and the declared builder stream has the asserted name, namespace
and single latest tag. -/
theorem newImageStreamFromDocker_correct_witness :
    ∃ is : ImageStream, newImageStreamFromDocker testComponent = some is ∧
      is.objectMeta.name = testComponent.spec.buildType ∧
      is.objectMeta.nspace = testComponent.nspace ∧
      is.spec.tags = [{ name := "latest"
                        fromRef := some { kind := "DockerImage", name := "nodeshift/centos7-s2i-nodejs:10.x" } }] :=
  (newImageStreamFromDocker_correct testComponent).2 "nodeshift/centos7-s2i-nodejs:10.x" (by decide)

/-- C10: whenever `newImageStreamFromDocker` returns a declared builder
ImageStream, that stream's image lookup policy has Local set to false. -/
theorem newImageStreamFromDocker_lookupPolicy_not_local (cr : Component) (is : ImageStream)
    (h : newImageStreamFromDocker cr = some is) :
    is.spec.lookupPolicy.local' = false := by
  rcases hb : buildTypeImages cr.spec.buildType with _ | img
  · rw [newImageStreamFromDocker_of_unmapped cr hb] at h
    cases h
  · rw [newImageStreamFromDocker_of_mapped cr img hb] at h
    cases h
    rfl

/-- Witness for C10 at the controller test's Component. -/
theorem newImageStreamFromDocker_lookupPolicy_not_local_witness :
    nodejsBuilderImageStream.spec.lookupPolicy.local' = false :=
  newImageStreamFromDocker_lookupPolicy_not_local testComponent nodejsBuilderImageStream (by decide)

/-- C5: every derived resource's (namespace, name) pair is a
deterministic function of the Component's (namespace, name) and, for the
declared builder image, its BuildType: the builder is named after the
BuildType in the Component's namespace, while the output ImageStream,
the BuildConfig and the DeploymentConfig are all named after the
Component in the Component's namespace. -/
theorem derived_resource_names_deterministic (cr : Component) (is b o : ImageStream)
    (h : newImageStreamFromDocker cr = some is) :
    (is.objectMeta.nspace, is.objectMeta.name) = (cr.nspace, cr.spec.buildType) ∧
    ((newOutputImageStream cr).objectMeta.nspace, (newOutputImageStream cr).objectMeta.name) = (cr.nspace, cr.name) ∧
    ((newBuildConfig cr b).objectMeta.nspace, (newBuildConfig cr b).objectMeta.name) = (cr.nspace, cr.name) ∧
    ((newDeploymentConfig cr o).objectMeta.nspace, (newDeploymentConfig cr o).objectMeta.name) = (cr.nspace, cr.name) := by
  refine ⟨?_, rfl, rfl, rfl⟩
  rcases hb : buildTypeImages cr.spec.buildType with _ | img
  · rw [newImageStreamFromDocker_of_unmapped cr hb] at h
    cases h
  · rw [newImageStreamFromDocker_of_mapped cr img hb] at h
    cases h
    rfl

/-- Witness for C5 at the controller test's values: ns "test-project",
name "MyComp", BuildType "nodejs" — the builder is ("test-project",
"nodejs") and the other three resources are ("test-project", "MyComp"). -/
theorem derived_resource_names_deterministic_witness :
    (nodejsBuilderImageStream.objectMeta.nspace, nodejsBuilderImageStream.objectMeta.name) = ("test-project", "nodejs") ∧
    ((newOutputImageStream testComponent).objectMeta.nspace, (newOutputImageStream testComponent).objectMeta.name) = ("test-project", "MyComp") ∧
    ((newBuildConfig testComponent openshiftNodejsImageStream).objectMeta.nspace, (newBuildConfig testComponent openshiftNodejsImageStream).objectMeta.name) = ("test-project", "MyComp") ∧
    ((newDeploymentConfig testComponent (newOutputImageStream testComponent)).objectMeta.nspace, (newDeploymentConfig testComponent (newOutputImageStream testComponent)).objectMeta.name) = ("test-project", "MyComp") :=
  derived_resource_names_deterministic testComponent nodejsBuilderImageStream
    openshiftNodejsImageStream (newOutputImageStream testComponent) (by decide)

/-- C9: every derived resource carries exactly the one label
app=<Component.name>, and the DeploymentConfig's pod selector is that
same label set. -/
theorem derived_resources_single_label (cr : Component) (is b o : ImageStream)
    (h : newImageStreamFromDocker cr = some is) :
    is.objectMeta.labels = [("app", cr.name)] ∧
    (newOutputImageStream cr).objectMeta.labels = [("app", cr.name)] ∧
    (newBuildConfig cr b).objectMeta.labels = [("app", cr.name)] ∧
    (newDeploymentConfig cr o).objectMeta.labels = [("app", cr.name)] ∧
    (newDeploymentConfig cr o).spec.selector = (newDeploymentConfig cr o).objectMeta.labels := by
  refine ⟨?_, rfl, rfl, rfl, rfl⟩
  rcases hb : buildTypeImages cr.spec.buildType with _ | img
  · rw [newImageStreamFromDocker_of_unmapped cr hb] at h
    cases h
  · rw [newImageStreamFromDocker_of_mapped cr img hb] at h
    cases h
    rfl

/-- Witness for C9 at the controller test's Component. -/
theorem derived_resources_single_label_witness :
    nodejsBuilderImageStream.objectMeta.labels = [("app", "MyComp")] ∧
    (newOutputImageStream testComponent).objectMeta.labels = [("app", "MyComp")] ∧
    (newBuildConfig testComponent openshiftNodejsImageStream).objectMeta.labels = [("app", "MyComp")] ∧
    (newDeploymentConfig testComponent (newOutputImageStream testComponent)).objectMeta.labels = [("app", "MyComp")] ∧
    (newDeploymentConfig testComponent (newOutputImageStream testComponent)).spec.selector = (newDeploymentConfig testComponent (newOutputImageStream testComponent)).objectMeta.labels :=
  derived_resources_single_label testComponent nodejsBuilderImageStream
    openshiftNodejsImageStream (newOutputImageStream testComponent) (by decide)

/-- C6: for every Component and builder ImageStream, the BuildConfig has
source-git URI equal to the Component's Codebase with branch "master",
output target `<name>:latest`, source-strategy image
`<builder.name>:latest` in the builder's namespace with the incremental
flag set, and exactly the two triggers config-change then image-change;
`newBuildConfig` is a total function of its two arguments. -/
theorem newBuildConfig_correct (cr : Component) (builder : ImageStream) :
    (newBuildConfig cr builder).spec.commonSpec.source.git = some { uri := cr.spec.codebase, ref := "master" } ∧
    (newBuildConfig cr builder).spec.commonSpec.output.toRef = some { kind := "ImageStreamTag", name := cr.name ++ ":latest" } ∧
    (newBuildConfig cr builder).spec.commonSpec.strategy.sourceStrategy = some
      { fromRef :=
          { kind := "ImageStreamTag"
            name := builder.objectMeta.name ++ ":latest"
            nspace := builder.objectMeta.nspace }
        incremental := some true } ∧
    (newBuildConfig cr builder).spec.triggers =
      [{ type := "ConfigChange" }, { type := "ImageChange", imageChange := some {} }] :=
  ⟨rfl, rfl, rfl, rfl⟩

/-- C7: for every Component and output ImageStream, the DeploymentConfig
has one replica, recreate strategy, selector and labels app=<name>, one
container named after the output image running `<output.name>:latest` on
TCP port 8080, and the two triggers config-change then image-change, the
latter automatic and bound to `<output.name>:latest`. -/
theorem newDeploymentConfig_correct (cr : Component) (output : ImageStream) :
    (newDeploymentConfig cr output).spec.replicas = 1 ∧
    (newDeploymentConfig cr output).spec.strategy.type = DeploymentStrategyTypeRecreate ∧
    (newDeploymentConfig cr output).spec.selector = [("app", cr.name)] ∧
    (newDeploymentConfig cr output).objectMeta.labels = [("app", cr.name)] ∧
    (newDeploymentConfig cr output).spec.template = some
      { objectMeta := { name := cr.name, nspace := cr.nspace, labels := [("app", cr.name)] }
        spec :=
          { containers :=
              [{ name := output.objectMeta.name
                 image := output.objectMeta.name ++ ":latest"
                 ports := [{ containerPort := 8080, protocol := ProtocolTCP }] }] } } ∧
    (newDeploymentConfig cr output).spec.triggers =
      [{ type := DeploymentTriggerOnConfigChange },
       { type := DeploymentTriggerOnImageChange
         imageChangeParams := some
           { automatic := true
             containerNames := [output.objectMeta.name]
             fromRef := { kind := "ImageStreamTag", name := output.objectMeta.name ++ ":latest" } } }] :=
  ⟨rfl, rfl, rfl, rfl, rfl, rfl⟩

/-! ## Claims about the reconciliation pass -/

/-- C2: with an empty BuildType and no cluster-local builder match, a
reconciliation pass fails; afterwards the output ImageStream named after
the Component exists in the store, but no BuildConfig and no
DeploymentConfig named after the Component exist. -/
theorem reconcile_unmapped_fails_closed (st : Store) (ns nm : String) (cr : Component)
    (hc : getByName componentKey st.components ns nm = some cr)
    (hbt : cr.spec.buildType = "")
    (hshared : ¬(cr.nspace = sharedNamespace ∧ cr.name = cr.spec.buildType))
    (hloc : getByName imageStreamKey st.imageStreams sharedNamespace cr.spec.buildType = none)
    (hbc : getByName buildConfigKey st.buildConfigs ns nm = none)
    (hdc : getByName deploymentConfigKey st.deploymentConfigs ns nm = none) :
    (reconcile st ns nm).1 = false ∧
    (getByName imageStreamKey (reconcile st ns nm).2.imageStreams ns nm).isSome ∧
    getByName buildConfigKey (reconcile st ns nm).2.buildConfigs ns nm = none ∧
    getByName deploymentConfigKey (reconcile st ns nm).2.deploymentConfigs ns nm = none := by
  obtain ⟨hns, hnm⟩ := getByName_key_of_some componentKey st.components ns nm cr hc
  simp only [componentKey] at hns hnm
  have hlook : getByName imageStreamKey
      (createIfAbsent imageStreamKey st.imageStreams (newOutputImageStream cr))
      sharedNamespace cr.spec.buildType = none := by
    apply getByName_createIfAbsent_of_ne
    · simpa [imageStreamKey, newOutputImageStream] using hshared
    · exact hloc
  have hdock : newImageStreamFromDocker cr = none :=
    newImageStreamFromDocker_of_unmapped cr (by rw [hbt]; rfl)
  have hrec : reconcile st ns nm =
      (false, { st with imageStreams := createIfAbsent imageStreamKey st.imageStreams (newOutputImageStream cr) }) := by
    simp only [reconcile, hc, hlook, hdock]
  rw [hrec]
  refine ⟨rfl, ?_, hbc, hdc⟩
  have h1 := getByName_createIfAbsent_self imageStreamKey st.imageStreams (newOutputImageStream cr)
  simpa [imageStreamKey, newOutputImageStream, hns, hnm] using h1

/-- Witness for C2 on the controller test's "without buildtype" store. -/
theorem reconcile_unmapped_fails_closed_witness :
    (reconcile emptyBuildTypeStore "test-project" "MyComp").1 = false ∧
    (getByName imageStreamKey (reconcile emptyBuildTypeStore "test-project" "MyComp").2.imageStreams "test-project" "MyComp").isSome ∧
    getByName buildConfigKey (reconcile emptyBuildTypeStore "test-project" "MyComp").2.buildConfigs "test-project" "MyComp" = none ∧
    getByName deploymentConfigKey (reconcile emptyBuildTypeStore "test-project" "MyComp").2.deploymentConfigs "test-project" "MyComp" = none :=
  reconcile_unmapped_fails_closed emptyBuildTypeStore "test-project" "MyComp"
    { name := "MyComp", nspace := "test-project"
      spec := { buildType := "", codebase := "https://somegit.con/myrepo" } }
    (by decide) (by decide) (by decide) (by decide) (by decide) (by decide)

/-- C3: when a cluster-local ImageStream named after the BuildType exists
in the shared namespace, a reconciliation pass succeeds without creating
any ImageStream other than the output one (in particular no declared
builder image in the Component's namespace), and the created
BuildConfig's source-strategy image is `<buildType>:latest` in the
shared namespace. -/
theorem reconcile_prefers_cluster_local (st : Store) (ns nm : String) (cr : Component)
    (b : ImageStream)
    (hc : getByName componentKey st.components ns nm = some cr)
    (hloc : getByName imageStreamKey st.imageStreams sharedNamespace cr.spec.buildType = some b)
    (hbc : getByName buildConfigKey st.buildConfigs ns nm = none) :
    (reconcile st ns nm).1 = true ∧
    (reconcile st ns nm).2.imageStreams =
      createIfAbsent imageStreamKey st.imageStreams (newOutputImageStream cr) ∧
    getByName buildConfigKey (reconcile st ns nm).2.buildConfigs ns nm = some (newBuildConfig cr b) ∧
    (newBuildConfig cr b).spec.commonSpec.strategy.sourceStrategy = some
      { fromRef :=
          { kind := "ImageStreamTag"
            name := cr.spec.buildType ++ ":latest"
            nspace := sharedNamespace }
        incremental := some true } := by
  obtain ⟨hns, hnm⟩ := getByName_key_of_some componentKey st.components ns nm cr hc
  simp only [componentKey] at hns hnm
  obtain ⟨hbs, hbn⟩ := getByName_key_of_some imageStreamKey st.imageStreams
    sharedNamespace cr.spec.buildType b hloc
  simp only [imageStreamKey] at hbs hbn
  have hlook : getByName imageStreamKey
      (createIfAbsent imageStreamKey st.imageStreams (newOutputImageStream cr))
      sharedNamespace cr.spec.buildType = some b :=
    getByName_createIfAbsent_of_some imageStreamKey st.imageStreams (newOutputImageStream cr)
      sharedNamespace cr.spec.buildType b hloc
  have hrec : reconcile st ns nm =
      (true,
        { st with
            imageStreams := createIfAbsent imageStreamKey st.imageStreams (newOutputImageStream cr)
            buildConfigs := createIfAbsent buildConfigKey st.buildConfigs (newBuildConfig cr b)
            deploymentConfigs := createIfAbsent deploymentConfigKey st.deploymentConfigs (newDeploymentConfig cr (newOutputImageStream cr)) }) := by
    simp only [reconcile, hc, hlook]
  rw [hrec]
  refine ⟨rfl, rfl, ?_, ?_⟩
  · have h2 : getByName buildConfigKey st.buildConfigs
        (buildConfigKey (newBuildConfig cr b)).1 (buildConfigKey (newBuildConfig cr b)).2 = none := by
      simpa [buildConfigKey, newBuildConfig, hns, hnm] using hbc
    have h3 := getByName_createIfAbsent_none_self buildConfigKey st.buildConfigs
      (newBuildConfig cr b) h2
    simpa [buildConfigKey, newBuildConfig, hns, hnm] using h3
  · simp [newBuildConfig, hbs, hbn]

/-- Witness for C3 on the controller test's cluster-local store. -/
theorem reconcile_prefers_cluster_local_witness :
    (reconcile clusterLocalStore "test-project" "MyComp").1 = true ∧
    (reconcile clusterLocalStore "test-project" "MyComp").2.imageStreams =
      createIfAbsent imageStreamKey clusterLocalStore.imageStreams (newOutputImageStream testComponent) ∧
    getByName buildConfigKey (reconcile clusterLocalStore "test-project" "MyComp").2.buildConfigs "test-project" "MyComp" = some (newBuildConfig testComponent openshiftNodejsImageStream) ∧
    (newBuildConfig testComponent openshiftNodejsImageStream).spec.commonSpec.strategy.sourceStrategy = some
      { fromRef := { kind := "ImageStreamTag", name := "nodejs" ++ ":latest", nspace := sharedNamespace }
        incremental := some true } :=
  reconcile_prefers_cluster_local clusterLocalStore "test-project" "MyComp"
    testComponent openshiftNodejsImageStream (by decide) (by decide) (by decide)

/-- A reconciliation pass over a store that already holds the Component's
output ImageStream, BuildConfig and DeploymentConfig, and in which a
builder is resolvable (cluster-local, or declared and already stored),
succeeds and returns the store unchanged: every create observes
already-exists and is treated as success. -/
theorem reconcile_fixed_point (t : Store) (ns nm : String) (cr : Component)
    (hc : getByName componentKey t.components ns nm = some cr)
    (hout : (getByName imageStreamKey t.imageStreams cr.nspace cr.name).isSome)
    (hbc : (getByName buildConfigKey t.buildConfigs cr.nspace cr.name).isSome)
    (hdc : (getByName deploymentConfigKey t.deploymentConfigs cr.nspace cr.name).isSome)
    (hbuild : (getByName imageStreamKey t.imageStreams sharedNamespace cr.spec.buildType).isSome ∨
      ∃ b : ImageStream, newImageStreamFromDocker cr = some b ∧
        (getByName imageStreamKey t.imageStreams (imageStreamKey b).1 (imageStreamKey b).2).isSome) :
    reconcile t ns nm = (true, t) := by
  have houtk : (getByName imageStreamKey t.imageStreams
      (imageStreamKey (newOutputImageStream cr)).1
      (imageStreamKey (newOutputImageStream cr)).2).isSome := by
    simpa [imageStreamKey, newOutputImageStream] using hout
  have e1 : createIfAbsent imageStreamKey t.imageStreams (newOutputImageStream cr) = t.imageStreams :=
    createIfAbsent_of_isSome imageStreamKey t.imageStreams (newOutputImageStream cr) houtk
  have e3 : ∀ b : ImageStream,
      createIfAbsent buildConfigKey t.buildConfigs (newBuildConfig cr b) = t.buildConfigs := by
    intro b
    apply createIfAbsent_of_isSome
    simpa [buildConfigKey, newBuildConfig] using hbc
  have e4 : createIfAbsent deploymentConfigKey t.deploymentConfigs
      (newDeploymentConfig cr (newOutputImageStream cr)) = t.deploymentConfigs := by
    apply createIfAbsent_of_isSome
    simpa [deploymentConfigKey, newDeploymentConfig] using hdc
  rcases hlook : getByName imageStreamKey t.imageStreams sharedNamespace cr.spec.buildType with _ | b
  · rcases hbuild with hl | ⟨b, hdock, hbk⟩
    · rw [hlook] at hl
      simp at hl
    · have e2 : createIfAbsent imageStreamKey t.imageStreams b = t.imageStreams :=
        createIfAbsent_of_isSome imageStreamKey t.imageStreams b hbk
      simp only [reconcile, hc, e1, hlook, hdock, e2, e3, e4]
  · simp only [reconcile, hc, e1, hlook, e3, e4]

/-- C4: on a store holding a Component with a mapped BuildType, the first
reconciliation pass succeeds, and a second pass on the resulting store
succeeds and leaves it unchanged — the derived output ImageStream,
BuildConfig and DeploymentConfig named after the Component all exist
afterwards and every create of the second pass observes already-exists. -/
theorem reconcile_idempotent (st : Store) (ns nm : String) (cr : Component) (img : String)
    (hc : getByName componentKey st.components ns nm = some cr)
    (hm : buildTypeImages cr.spec.buildType = some img) :
    (reconcile st ns nm).1 = true ∧
    (getByName imageStreamKey (reconcile st ns nm).2.imageStreams ns nm).isSome ∧
    (getByName buildConfigKey (reconcile st ns nm).2.buildConfigs ns nm).isSome ∧
    (getByName deploymentConfigKey (reconcile st ns nm).2.deploymentConfigs ns nm).isSome ∧
    reconcile (reconcile st ns nm).2 ns nm = (true, (reconcile st ns nm).2) := by
  obtain ⟨hns, hnm⟩ := getByName_key_of_some componentKey st.components ns nm cr hc
  simp only [componentKey] at hns hnm
  have hdock := newImageStreamFromDocker_of_mapped cr img hm
  rcases hdockb : newImageStreamFromDocker cr with _ | bIS
  · rw [hdock] at hdockb
    simp at hdockb
  rcases hlook : getByName imageStreamKey
      (createIfAbsent imageStreamKey st.imageStreams (newOutputImageStream cr))
      sharedNamespace cr.spec.buildType with _ | b
  · have hrec : reconcile st ns nm = (true,
        { st with
            imageStreams := createIfAbsent imageStreamKey (createIfAbsent imageStreamKey st.imageStreams (newOutputImageStream cr)) bIS
            buildConfigs := createIfAbsent buildConfigKey st.buildConfigs (newBuildConfig cr bIS)
            deploymentConfigs := createIfAbsent deploymentConfigKey st.deploymentConfigs (newDeploymentConfig cr (newOutputImageStream cr)) }) := by
      simp only [reconcile, hc, hlook, hdockb]
    rw [hrec]
    dsimp only
    refine ⟨rfl, ?_, ?_, ?_, ?_⟩
    · apply getByName_createIfAbsent_isSome_mono
      simpa [imageStreamKey, newOutputImageStream, hns, hnm] using
        getByName_createIfAbsent_self imageStreamKey st.imageStreams (newOutputImageStream cr)
    · simpa [buildConfigKey, newBuildConfig, hns, hnm] using
        getByName_createIfAbsent_self buildConfigKey st.buildConfigs (newBuildConfig cr bIS)
    · simpa [deploymentConfigKey, newDeploymentConfig, hns, hnm] using
        getByName_createIfAbsent_self deploymentConfigKey st.deploymentConfigs
          (newDeploymentConfig cr (newOutputImageStream cr))
    · apply reconcile_fixed_point _ ns nm cr
      · exact hc
      · apply getByName_createIfAbsent_isSome_mono
        simpa [imageStreamKey, newOutputImageStream] using
          getByName_createIfAbsent_self imageStreamKey st.imageStreams (newOutputImageStream cr)
      · simpa [buildConfigKey, newBuildConfig] using
          getByName_createIfAbsent_self buildConfigKey st.buildConfigs (newBuildConfig cr bIS)
      · simpa [deploymentConfigKey, newDeploymentConfig] using
          getByName_createIfAbsent_self deploymentConfigKey st.deploymentConfigs
            (newDeploymentConfig cr (newOutputImageStream cr))
      · refine Or.inr ⟨bIS, hdockb, ?_⟩
        exact getByName_createIfAbsent_self imageStreamKey
          (createIfAbsent imageStreamKey st.imageStreams (newOutputImageStream cr)) bIS
  · have hrec : reconcile st ns nm = (true,
        { st with
            imageStreams := createIfAbsent imageStreamKey st.imageStreams (newOutputImageStream cr)
            buildConfigs := createIfAbsent buildConfigKey st.buildConfigs (newBuildConfig cr b)
            deploymentConfigs := createIfAbsent deploymentConfigKey st.deploymentConfigs (newDeploymentConfig cr (newOutputImageStream cr)) }) := by
      simp only [reconcile, hc, hlook]
    rw [hrec]
    dsimp only
    refine ⟨rfl, ?_, ?_, ?_, ?_⟩
    · simpa [imageStreamKey, newOutputImageStream, hns, hnm] using
        getByName_createIfAbsent_self imageStreamKey st.imageStreams (newOutputImageStream cr)
    · simpa [buildConfigKey, newBuildConfig, hns, hnm] using
        getByName_createIfAbsent_self buildConfigKey st.buildConfigs (newBuildConfig cr b)
    · simpa [deploymentConfigKey, newDeploymentConfig, hns, hnm] using
        getByName_createIfAbsent_self deploymentConfigKey st.deploymentConfigs
          (newDeploymentConfig cr (newOutputImageStream cr))
    · apply reconcile_fixed_point _ ns nm cr
      · exact hc
      · simpa [imageStreamKey, newOutputImageStream] using
          getByName_createIfAbsent_self imageStreamKey st.imageStreams (newOutputImageStream cr)
      · simpa [buildConfigKey, newBuildConfig] using
          getByName_createIfAbsent_self buildConfigKey st.buildConfigs (newBuildConfig cr b)
      · simpa [deploymentConfigKey, newDeploymentConfig] using
          getByName_createIfAbsent_self deploymentConfigKey st.deploymentConfigs
            (newDeploymentConfig cr (newOutputImageStream cr))
      · left
        rw [hlook]
        rfl

/-- Witness for C4 on the controller test's store. -/
theorem reconcile_idempotent_witness :
    (reconcile mappedStore "test-project" "MyComp").1 = true ∧
    (getByName imageStreamKey (reconcile mappedStore "test-project" "MyComp").2.imageStreams "test-project" "MyComp").isSome ∧
    (getByName buildConfigKey (reconcile mappedStore "test-project" "MyComp").2.buildConfigs "test-project" "MyComp").isSome ∧
    (getByName deploymentConfigKey (reconcile mappedStore "test-project" "MyComp").2.deploymentConfigs "test-project" "MyComp").isSome ∧
    reconcile (reconcile mappedStore "test-project" "MyComp").2 "test-project" "MyComp" =
      (true, (reconcile mappedStore "test-project" "MyComp").2) :=
  reconcile_idempotent mappedStore "test-project" "MyComp" testComponent
    "nodeshift/centos7-s2i-nodejs:10.x" (by decide) (by decide)

/-- C8: with an empty Codebase but a mapped BuildType (and no
cluster-local builder), a reconciliation pass succeeds; the declared
builder ImageStream, the output ImageStream and the BuildConfig all
exist afterwards, and the created BuildConfig's source-git URI is the
empty string — an empty Codebase blocks nothing. -/
theorem reconcile_empty_codebase_succeeds (st : Store) (ns nm : String) (cr : Component)
    (img : String)
    (hc : getByName componentKey st.components ns nm = some cr)
    (hcb : cr.spec.codebase = "")
    (hm : buildTypeImages cr.spec.buildType = some img)
    (hshared : ¬(cr.nspace = sharedNamespace ∧ cr.name = cr.spec.buildType))
    (hloc : getByName imageStreamKey st.imageStreams sharedNamespace cr.spec.buildType = none)
    (hbc : getByName buildConfigKey st.buildConfigs ns nm = none) :
    (reconcile st ns nm).1 = true ∧
    (getByName imageStreamKey (reconcile st ns nm).2.imageStreams cr.nspace cr.spec.buildType).isSome ∧
    (getByName imageStreamKey (reconcile st ns nm).2.imageStreams ns nm).isSome ∧
    ∃ bc : BuildConfig,
      getByName buildConfigKey (reconcile st ns nm).2.buildConfigs ns nm = some bc ∧
      bc.spec.commonSpec.source.git = some { uri := "", ref := "master" } := by
  obtain ⟨hns, hnm⟩ := getByName_key_of_some componentKey st.components ns nm cr hc
  simp only [componentKey] at hns hnm
  have hdock := newImageStreamFromDocker_of_mapped cr img hm
  rcases hdockb : newImageStreamFromDocker cr with _ | bIS
  · rw [hdock] at hdockb
    simp at hdockb
  have hkey : imageStreamKey bIS = (cr.nspace, cr.spec.buildType) := by
    rw [hdock] at hdockb
    cases hdockb
    rfl
  have hlook : getByName imageStreamKey
      (createIfAbsent imageStreamKey st.imageStreams (newOutputImageStream cr))
      sharedNamespace cr.spec.buildType = none := by
    apply getByName_createIfAbsent_of_ne
    · simpa [imageStreamKey, newOutputImageStream] using hshared
    · exact hloc
  have hrec : reconcile st ns nm = (true,
      { st with
          imageStreams := createIfAbsent imageStreamKey (createIfAbsent imageStreamKey st.imageStreams (newOutputImageStream cr)) bIS
          buildConfigs := createIfAbsent buildConfigKey st.buildConfigs (newBuildConfig cr bIS)
          deploymentConfigs := createIfAbsent deploymentConfigKey st.deploymentConfigs (newDeploymentConfig cr (newOutputImageStream cr)) }) := by
    simp only [reconcile, hc, hlook, hdockb]
  rw [hrec]
  dsimp only
  refine ⟨rfl, ?_, ?_, ⟨newBuildConfig cr bIS, ?_, ?_⟩⟩
  · simpa [hkey] using getByName_createIfAbsent_self imageStreamKey
      (createIfAbsent imageStreamKey st.imageStreams (newOutputImageStream cr)) bIS
  · apply getByName_createIfAbsent_isSome_mono
    simpa [imageStreamKey, newOutputImageStream, hns, hnm] using
      getByName_createIfAbsent_self imageStreamKey st.imageStreams (newOutputImageStream cr)
  · have h2 : getByName buildConfigKey st.buildConfigs
        (buildConfigKey (newBuildConfig cr bIS)).1 (buildConfigKey (newBuildConfig cr bIS)).2 = none := by
      simpa [buildConfigKey, newBuildConfig, hns, hnm] using hbc
    have h3 := getByName_createIfAbsent_none_self buildConfigKey st.buildConfigs
      (newBuildConfig cr bIS) h2
    simpa [buildConfigKey, newBuildConfig, hns, hnm] using h3
  · simp [newBuildConfig, hcb]

/-- Witness for C8 on the controller test's "without codebases" store. -/
theorem reconcile_empty_codebase_succeeds_witness :
    (reconcile emptyCodebaseStore "test-project" "MyComp").1 = true ∧
    (getByName imageStreamKey (reconcile emptyCodebaseStore "test-project" "MyComp").2.imageStreams "test-project" "nodejs").isSome ∧
    (getByName imageStreamKey (reconcile emptyCodebaseStore "test-project" "MyComp").2.imageStreams "test-project" "MyComp").isSome ∧
    ∃ bc : BuildConfig,
      getByName buildConfigKey (reconcile emptyCodebaseStore "test-project" "MyComp").2.buildConfigs "test-project" "MyComp" = some bc ∧
      bc.spec.commonSpec.source.git = some { uri := "", ref := "master" } :=
  reconcile_empty_codebase_succeeds emptyCodebaseStore "test-project" "MyComp"
    { name := "MyComp", nspace := "test-project"
      spec := { buildType := "nodejs", codebase := "" } }
    "nodeshift/centos7-s2i-nodejs:10.x"
    (by decide) (by decide) (by decide) (by decide) (by decide) (by decide)
